import Mathlib

/-!
Shallow embedding of `scapy/layers/tuntap.py` (TUN/TAP interface layer).

Byte strings are modelled as `List Nat` (each element a byte value).
Machine integers are `Nat` with explicit `% 256` where serialization
truncates.  The external stream handle (`self.ins` / `self.outs`, provided
by the `SimpleSocket` base class, which is not part of this module) is
modelled by explicit state passing: a list of available bytes for reads, a
failure flag for writes, and a `closed` flag on the channel.
-/

/-! ## Constants (Linux and Darwin defines from the module header) -/

def LINUX_IFF_TUN : Nat := 0x0001

def LINUX_IFF_TAP : Nat := 0x0002

def LINUX_IFF_NO_PI : Nat := 0x1000

def LINUX_IFNAMSIZ : Nat := 16

/-- Darwin value of `socket.AF_INET` (the platform on which the utun branch
runs). -/
def AF_INET : Nat := 2

/-- Darwin value of `socket.AF_INET6`. -/
def AF_INET6 : Nat := 30

/-! ## Errors

Each constructor corresponds to one distinct raise site (or to the failure
of the underlying stream primitive) in the Python code:
`AmbiguousModeError` is the `ValueError` raised when the mode cannot be
inferred from the interface name; `UnsupportedAddressFamilyError` is the
`NotImplementedError` raised by `MacOSUtunPacketInfo.guess_payload_class`;
`ClosedChannelError` is the `ValueError` the stream raises on I/O after
`close()`; `TransportWriteError` is the `socket.error` (`OSError`) an
underlying write may raise. -/

inductive TunTapError
  | AmbiguousModeError
  | InvalidNameError
  | UnsupportedPlatformError
  | UnsupportedAddressFamilyError
  | ClosedChannelError
  | TransportWriteError
deriving DecidableEq, Repr

/-! ## Kernel packet classes and payload classes -/

/-- The possible values of `self.kernel_packet_class`. -/
inductive KernelClass
  | IPv46
  | Ether
  | LinuxTunPacketInfo
  | MacOSUtunPacketInfo
deriving DecidableEq, Repr

/-- The class value returned by `recv_raw` as the first component of its
result tuple.  `ofChannel c` is the channel's own `kernel_packet_class`
(non-stripping path); `etherBound ty` stands for the class the external
packet framework binds to ethertype `ty` through the `Ether` aliastypes of
`TunPacketInfo` (the binding table itself is part of the out-of-scope
dissection framework, so only the tag is modelled); `ipv4` / `ipv6` are the
`IP` / `IPv6` classes returned by `MacOSUtunPacketInfo.guess_payload_class`. -/
inductive PayloadClass
  | ofChannel (c : KernelClass)
  | etherBound (ty : Nat)
  | ipv4
  | ipv6
deriving DecidableEq, Repr

/-! ## Serialization primitives (byte-layout of the fixed headers) -/

/-- `StrFixedLenField` serialization: truncate to `n` bytes and zero-pad up
to exactly `n` bytes. -/
def strFixedLen (n : Nat) (s : List Nat) : List Nat :=
  s.take n ++ List.replicate (n - s.length) 0

/-- `NativeShortField` (fmt `@H`): 2 bytes, host byte order, selected by the
`be` flag (scapy's `BIG_ENDIAN` constant). -/
def nativeShortBytes (be : Bool) (v : Nat) : List Nat :=
  if be then [v / 256 % 256, v % 256] else [v % 256, v / 256 % 256]

/-- Network-order 2-byte field (`XShortEnumField`). -/
def beShortBytes (v : Nat) : List Nat :=
  [v / 256 % 256, v % 256]

/-- Network-order 4-byte field (`IntField`). -/
def beIntBytes (v : Nat) : List Nat :=
  [v / 16777216 % 256, v / 65536 % 256, v / 256 % 256, v % 256]

/-- Big-endian value of the first 2 bytes (missing bytes read as 0; all
claims supply full headers). -/
def parseBE2 (bs : List Nat) : Nat :=
  bs.getD 0 0 * 256 + bs.getD 1 0

/-- Big-endian value of the first 4 bytes. -/
def parseBE4 (bs : List Nat) : Nat :=
  ((bs.getD 0 0 * 256 + bs.getD 1 0) * 256 + bs.getD 2 0) * 256 + bs.getD 3 0

/-- Serialization of `LinuxTunIfReq` per its `fields_desc`: a 16-byte
`StrFixedLenField` name followed by a `NativeShortField` flags word. -/
def buildLinuxTunIfReq (be : Bool) (name : List Nat) (flags : Nat) : List Nat :=
  strFixedLen 16 name ++ nativeShortBytes be flags

/-- Serialization of `LinuxTunPacketInfo` per its `fields_desc`: a 16-bit
native-order `FlagsField` followed by a network-order `XShortEnumField`
ethertype. -/
def buildLinuxTunPacketInfo (be : Bool) (flags ty : Nat) : List Nat :=
  nativeShortBytes be flags ++ beShortBytes ty

/-- Serialization of `MacOSUtunPacketInfo`: one 4-byte network-order
`IntField` holding the address family. -/
def buildMacOSUtunPacketInfo (af : Nat) : List Nat :=
  beIntBytes af

/-- The `type` field value obtained by dissecting a `LinuxTunPacketInfo`
header buffer: bytes 2..3, network order. -/
def linuxTunPacketInfoType (hdr : List Nat) : Nat :=
  parseBE2 (hdr.drop 2)

/-- `guess_payload_class`, dispatched on the packet-info class, applied to a
dissected header buffer.  For `LinuxTunPacketInfo` the default
`Packet.guess_payload_class` resolves the embedded `type` ethertype through
the `Ether` binding table (external framework), so the result is the class
bound to that ethertype.  For `MacOSUtunPacketInfo` the method is defined in
this module: `AF_INET` yields `IP`, `AF_INET6` yields `IPv6`, anything else
raises (`UnsupportedAddressFamilyError`).  The remaining classes never reach
this call in `recv_raw` because their channels have `mtu_overhead = 0`. -/
def guess_payload_class : KernelClass → List Nat → Except TunTapError PayloadClass
  | .LinuxTunPacketInfo, hdr => .ok (.etherBound (linuxTunPacketInfoType hdr))
  | .MacOSUtunPacketInfo, hdr =>
    let af := parseBE4 hdr
    if af = AF_INET then .ok .ipv4
    else if af = AF_INET6 then .ok .ipv6
    else .error .UnsupportedAddressFamilyError
  | c, _ => .ok (.ofChannel c)

/-! ## The channel (the state of a `TunTapInterface` object) -/

structure Channel where
  mode_tun : Bool
  mtu_overhead : Nat
  strip_packet_info : Bool
  default_read_size : Nat
  kernel_packet_class : KernelClass
  closed : Bool
deriving DecidableEq, Repr

/-! ## Constructor (Linux branch of `TunTapInterface.__init__`) -/

/-- Warning-class diagnostics emitted by the constructor. -/
inductive WarningTag
  | tapNoPacketInfo
  | nameTruncated
deriving DecidableEq, Repr

/-- Result of a successful construction: the channel state plus the
artifacts the claims observe (possibly truncated name, ioctl flags, the
serialized `LinuxTunIfReq`, and the warnings emitted in order). -/
structure InitResult where
  ch : Channel
  iface : List Nat
  flags : Nat
  ifreqBytes : List Nat
  warnings : List WarningTag
deriving DecidableEq, Repr

/-- The bytes of the string `tun`. -/
def asciiTun : List Nat := [116, 117, 110]

/-- The bytes of the string `utun`. -/
def asciiUtun : List Nat := [117, 116, 117, 110]

/-- The bytes of the string `tap`. -/
def asciiTap : List Nat := [116, 97, 112]

/-- Mode inference in `__init__`: an explicit `mode_tun` wins; otherwise a
name starting with `tun` or `utun` gives tun mode, a name starting with
`tap` gives tap mode, and any other name raises the could-not-determine
`ValueError` (`AmbiguousModeError`). -/
def inferModeTun (iface : List Nat) (mode_tun : Option Bool) :
    Except TunTapError Bool :=
  match mode_tun with
  | some b => .ok b
  | none =>
    if List.isPrefixOf asciiTun iface || List.isPrefixOf asciiUtun iface then
      .ok true
    else if List.isPrefixOf asciiTap iface then .ok false
    else .error .AmbiguousModeError

/-- The Linux branch of `__init__` after mode inference: forces
`strip_packet_info` (with a warning) and keeps `kernel_packet_class = Ether`
in tap mode; uses `LinuxTunPacketInfo` with 4 bytes of overhead in tun mode;
truncates over-long names to `LINUX_IFNAMSIZ` with a warning; computes the
ioctl flags and the serialized `LinuxTunIfReq`. -/
def linuxSetup (be : Bool) (iface : List Nat) (modeTun : Bool)
    (default_read_size : Nat) (strip_packet_info : Bool) : InitResult :=
  let kpc := if modeTun then KernelClass.LinuxTunPacketInfo else KernelClass.Ether
  let overhead := if modeTun then 4 else 0
  let strip := if modeTun then strip_packet_info else true
  let warns0 : List WarningTag := if modeTun then [] else [.tapNoPacketInfo]
  let iface2 := if iface.length > LINUX_IFNAMSIZ then iface.take LINUX_IFNAMSIZ else iface
  let warns := warns0 ++
    (if iface.length > LINUX_IFNAMSIZ then [WarningTag.nameTruncated] else [])
  let flags := if modeTun then LINUX_IFF_TUN else LINUX_IFF_TAP ||| LINUX_IFF_NO_PI
  { ch := { mode_tun := modeTun, mtu_overhead := overhead,
            strip_packet_info := strip, default_read_size := default_read_size,
            kernel_packet_class := kpc, closed := false },
    iface := iface2, flags := flags,
    ifreqBytes := buildLinuxTunIfReq be iface2 flags,
    warnings := warns }

/-- `TunTapInterface.__init__` on the Linux platform branch: mode inference
followed by the Linux device setup.  A raise during inference propagates and
no object is constructed. -/
def tuntapInit_linux (be : Bool) (iface : List Nat) (mode_tun : Option Bool)
    (default_read_size : Nat) (strip_packet_info : Bool) :
    Except TunTapError InitResult :=
  match inferModeTun iface mode_tun with
  | .error e => .error e
  | .ok modeTun => .ok (linuxSetup be iface modeTun default_read_size strip_packet_info)

/-- The constructed channel's mode, `none` when construction failed (no
partial object exists). -/
def initMode : Except TunTapError InitResult → Option Bool
  | .ok r => some r.ch.mode_tun
  | .error _ => none

/-! ## Frames passed to `send`

A scapy `Packet` is modelled by its class, its `sent_time` attribute (the
outer `Option` is `hasattr`; bare byte payloads lack the attribute) and its
structure: `base` is a packet whose remaining serialization is opaque bytes,
`layered c p` is `c() / p` (class `c`'s default header prepended to `p`).
Serialization of the external classes (IP headers and the like) belongs to
the out-of-scope packet-description library, so `send` takes the serializer
`rawFn` as an explicit collaborator argument. -/

inductive PktCls
  | IP
  | IPv6
  | Ether
  | LinuxTunPacketInfo
  | MacOSUtunPacketInfo
  | RawData
deriving DecidableEq, Repr

inductive Pkt
  | base (cls : PktCls) (hasST : Bool) (sentTime : Option Nat) (content : List Nat)
  | layered (cls : PktCls) (hasST : Bool) (sentTime : Option Nat) (inner : Pkt)
deriving DecidableEq, Repr

/-- The Python class of the packet object (for `isinstance` tests). -/
def Pkt.cls : Pkt → PktCls
  | .base c _ _ _ => c
  | .layered c _ _ _ => c

/-- `hasattr(x, "sent_time")`. -/
def Pkt.hasSentTime : Pkt → Bool
  | .base _ h _ _ => h
  | .layered _ h _ _ => h

/-- The value of the `sent_time` attribute of the outermost layer. -/
def Pkt.sentTimeVal : Pkt → Option Nat
  | .base _ _ t _ => t
  | .layered _ _ t _ => t

/-- `x.sent_time = t` on the outermost layer. -/
def Pkt.setSentTime (t : Nat) : Pkt → Pkt
  | .base c h _ b => .base c h (some t) b
  | .layered c h _ p => .layered c h (some t) p

/-- The packet class corresponding to a channel's `kernel_packet_class`,
used for the `isinstance(x, self.kernel_packet_class)` test and for the
`self.kernel_packet_class() / x` wrap.  The `IPv46` row is unreachable in
`send` (that case is handled by the dedicated branch first); it is mapped to
`RawData`, which no kernel channel ever produces. -/
def clsOfKernel : KernelClass → PktCls
  | .IPv46 => .RawData
  | .Ether => .Ether
  | .LinuxTunPacketInfo => .LinuxTunPacketInfo
  | .MacOSUtunPacketInfo => .MacOSUtunPacketInfo

/-- The wrapping step of `send`: on an `IPv46` (auto-detect) channel a frame
that is not already `IP` or `IPv6` becomes `IP() / x`; on any other channel
a frame that is not an instance of the channel's `kernel_packet_class` gets
that class's default header prepended. -/
def sendWrap (kpc : KernelClass) (x : Pkt) : Pkt :=
  if kpc = .IPv46 then
    if x.cls = .IP ∨ x.cls = .IPv6 then x
    else .layered .IP true none x
  else if x.cls = clsOfKernel kpc then x
  else .layered (clsOfKernel kpc) true none x

/-! ## The stream primitives (external collaborators) -/

/-- Modelled from the spec: the blocking read primitive of the duplex
byte-stream handle owned by the `SimpleSocket` base class (not part of this
module).  It returns up to `n` bytes, fewer at stream end, and any I/O
attempted after `close()` fails (`ClosedChannelError`). -/
def insRead (closed : Bool) (stream : List Nat) (n : Nat) :
    Except TunTapError (List Nat) :=
  if closed then .error .ClosedChannelError
  else .ok (stream.take n)

/-- Modelled from the spec: the write primitive of the stream handle.  A
write on a closed handle fails with the closed-channel error (which is not a
`socket.error`, so `send` does not catch it); a transport-level failure is
`TransportWriteError` (`socket.error`); otherwise the stream accepts all
bytes and reports their count. -/
def outsWrite (closed : Bool) (writeFails : Bool) (sx : List Nat) :
    Except TunTapError Nat :=
  if closed then .error .ClosedChannelError
  else if writeFails then .error .TransportWriteError
  else .ok sx.length

/-! ## `recv_raw` and `send` -/

/-- Everything observable about one `recv_raw` call: the sizes of the
underlying reads performed, and the returned triple
(payload class, bytes, timestamp) or the raised error. -/
structure RecvOut where
  readSizes : List Nat
  result : Except TunTapError (PayloadClass × List Nat × Nat)
deriving Repr

/-- Everything observable about one `send` call: the caller's frame object
after the `sent_time` mutation, the possibly wrapped frame that was
serialized, the byte strings written (one entry per underlying write
attempt), whether the stream was flushed, the runtime-error log entries, and
the returned value (`ok none` models Python's implicit `return None` on the
caught-error path) or the propagated error. -/
structure SendOut where
  callerFrame : Pkt
  prepared : Pkt
  writes : List (List Nat)
  flushed : Bool
  logged : List String
  result : Except TunTapError (Option Nat)
deriving Repr

namespace TunTapInterface

/-- `TunTapInterface.recv_raw`: defaults the size to
`self.default_read_size`, adds `self.mtu_overhead`, performs one read of
that many bytes, timestamps, and when overhead is present and stripping is
on dissects the first `mtu_overhead` bytes as the kernel packet-info class,
asks it for the payload class, and returns the bytes after the header;
otherwise returns the channel's class and the full buffer. -/
def recv_raw (ch : Channel) (stream : List Nat) (now : Nat)
    (size : Option Nat) : RecvOut :=
  let x := size.getD ch.default_read_size + ch.mtu_overhead
  match insRead ch.closed stream x with
  | .error e => { readSizes := [x], result := .error e }
  | .ok dat =>
    if 0 < ch.mtu_overhead ∧ ch.strip_packet_info = true then
      match guess_payload_class ch.kernel_packet_class (dat.take ch.mtu_overhead) with
      | .error e => { readSizes := [x], result := .error e }
      | .ok cls =>
        { readSizes := [x], result := .ok (cls, dat.drop ch.mtu_overhead, now) }
    else
      { readSizes := [x],
        result := .ok (.ofChannel ch.kernel_packet_class, dat, now) }

/-- `TunTapInterface.send`: stamps `sent_time` when the frame has that
attribute, wraps per `sendWrap`, serializes with the external serializer
`rawFn`, writes once and flushes; a `socket.error` from the write is logged
(`log_runtime.error("%s send", ...)` with the class name) and swallowed
(returning `None`); any other stream error propagates. -/
def send (rawFn : Pkt → List Nat) (ch : Channel) (writeFails : Bool)
    (now : Nat) (x : Pkt) : SendOut :=
  let x1 := if x.hasSentTime then x.setSentTime now else x
  let x2 := sendWrap ch.kernel_packet_class x1
  let sx := rawFn x2
  match outsWrite ch.closed writeFails sx with
  | .ok r =>
    { callerFrame := x1, prepared := x2, writes := [sx], flushed := true,
      logged := [], result := .ok (some r) }
  | .error .TransportWriteError =>
    { callerFrame := x1, prepared := x2, writes := [sx], flushed := false,
      logged := ["TunTapInterface send"], result := .ok none }
  | .error e =>
    { callerFrame := x1, prepared := x2, writes := [sx], flushed := false,
      logged := [], result := .error e }

/-- Modelled from the spec: `close()` is inherited from the `SuperSocket`
base class (not part of this module); it releases the handle and marks the
channel closed, after which every stream operation fails. -/
def close (ch : Channel) : Channel :=
  { ch with closed := true }

end TunTapInterface

/-! ## Concrete fixtures (channels as the Linux / Darwin branches build them) -/

/-- The bytes of the name `tun0`. -/
def tun0Name : List Nat := [116, 117, 110, 48]

/-- The bytes of the name `tap3`. -/
def tap3Name : List Nat := [116, 97, 112, 51]

/-- The bytes of the name `eth0`. -/
def eth0Name : List Nat := [101, 116, 104, 48]

/-- A 20-byte name starting with `tun` (`tun` plus 17 `0` characters). -/
def longName : List Nat := asciiTun ++ List.replicate 17 48

/-- The channel a Linux tun-mode construction produces. -/
def chLinuxTun : Channel :=
  { mode_tun := true, mtu_overhead := 4, strip_packet_info := true,
    default_read_size := 65535, kernel_packet_class := .LinuxTunPacketInfo,
    closed := false }

/-- The channel a Darwin utun construction produces. -/
def chUtun : Channel :=
  { mode_tun := true, mtu_overhead := 4, strip_packet_info := true,
    default_read_size := 65535, kernel_packet_class := .MacOSUtunPacketInfo,
    closed := false }

/-! ## Helper lemmas -/

theorem length_nativeShortBytes (be : Bool) (v : Nat) :
    (nativeShortBytes be v).length = 2 := by
  cases be <;> simp [nativeShortBytes]

theorem length_buildLinuxTunPacketInfo (be : Bool) (flags ty : Nat) :
    (buildLinuxTunPacketInfo be flags ty).length = 4 := by
  cases be <;> simp [buildLinuxTunPacketInfo, nativeShortBytes, beShortBytes]

theorem length_buildMacOSUtunPacketInfo (af : Nat) :
    (buildMacOSUtunPacketInfo af).length = 4 := by
  simp [buildMacOSUtunPacketInfo, beIntBytes]

theorem linuxTunPacketInfoType_build (be : Bool) (flags ty : Nat)
    (hty : ty < 65536) :
    linuxTunPacketInfoType (buildLinuxTunPacketInfo be flags ty) = ty := by
  cases be <;>
    simp [linuxTunPacketInfoType, buildLinuxTunPacketInfo, nativeShortBytes,
          beShortBytes, parseBE2] <;>
    omega

theorem parseBE4_beIntBytes (af : Nat) (haf : af < 4294967296) :
    parseBE4 (beIntBytes af) = af := by
  simp [parseBE4, beIntBytes]
  omega

theorem length_strFixedLen (n : Nat) (s : List Nat) :
    (strFixedLen n s).length = n := by
  simp [strFixedLen]
  omega

theorem take_append_of_length (a b : List Nat) (n : Nat) (h : a.length = n) :
    (a ++ b).take n = a := by
  rw [← h, List.take_left]

/-- A name starting with `tap` starts with neither `tun` nor `utun`. -/
theorem tap_not_tun (l : List Nat) (h : List.isPrefixOf asciiTap l = true) :
    List.isPrefixOf asciiTun l = false ∧ List.isPrefixOf asciiUtun l = false := by
  match l with
  | [] => simp [asciiTap, List.isPrefixOf] at h
  | [a] => simp [asciiTap, List.isPrefixOf] at h
  | a :: b :: t =>
    simp [asciiTap, List.isPrefixOf] at h
    obtain ⟨ha, hb, _⟩ := h
    subst ha
    subst hb
    simp [asciiTun, asciiUtun, List.isPrefixOf]

/-- Evaluation of `recv_raw` on an open channel with 4 bytes of overhead and
stripping enabled: one read of `size + 4` bytes, the first 4 bytes dissected
as the kernel packet-info class, the remainder returned. -/
theorem recv_raw_strip4 (ch : Channel) (stream : List Nat) (now : Nat)
    (size : Option Nat) (h4 : ch.mtu_overhead = 4)
    (hs : ch.strip_packet_info = true) (hc : ch.closed = false) :
    TunTapInterface.recv_raw ch stream now size =
      { readSizes := [size.getD ch.default_read_size + 4],
        result :=
          match guess_payload_class ch.kernel_packet_class
              ((stream.take (size.getD ch.default_read_size + 4)).take 4) with
          | .ok cls =>
            .ok (cls, (stream.take (size.getD ch.default_read_size + 4)).drop 4, now)
          | .error e => .error e } := by
  unfold TunTapInterface.recv_raw insRead
  rw [hc, h4, hs]
  simp only [Bool.false_eq_true, if_false]
  rw [if_pos ⟨by norm_num, trivial⟩]
  cases hg : guess_payload_class ch.kernel_packet_class
      ((stream.take (size.getD ch.default_read_size + 4)).take 4) <;> simp [hg]

/-! ## Claim theorems -/

/-- Claim C1: `recv` with requested size `N` on a channel with overhead 4
and header stripping enabled performs exactly one underlying read, of
`N + 4` bytes (the channel's configured default size standing in for `N`
when the size is omitted), and, when the stream supplies that many bytes,
the payload returned is exactly the `N` bytes following the 4-byte header
(whenever the header's payload-class derivation succeeds). -/
theorem claim_C1 (ch : Channel) (stream : List Nat) (now : Nat)
    (size : Option Nat) (h4 : ch.mtu_overhead = 4)
    (hs : ch.strip_packet_info = true) (hc : ch.closed = false)
    (hlen : size.getD ch.default_read_size + 4 ≤ stream.length) :
    (TunTapInterface.recv_raw ch stream now size).readSizes
        = [size.getD ch.default_read_size + 4] ∧
    (TunTapInterface.recv_raw ch stream now size).result =
      (match guess_payload_class ch.kernel_packet_class
          ((stream.take (size.getD ch.default_read_size + 4)).take 4) with
        | .ok cls =>
          .ok (cls, (stream.drop 4).take (size.getD ch.default_read_size), now)
        | .error e => .error e) ∧
    ((stream.drop 4).take (size.getD ch.default_read_size)).length
        = size.getD ch.default_read_size := by
  have hdt : (stream.take (size.getD ch.default_read_size + 4)).drop 4
      = (stream.drop 4).take (size.getD ch.default_read_size) := by
    rw [List.drop_take]
    simp
  rw [recv_raw_strip4 ch stream now size h4 hs hc]
  refine ⟨rfl, ?_, ?_⟩
  · rw [← hdt]
  · simp
    omega

/-- Claim C2: attaching the 4-byte Linux tun framing header (2-byte
native-order flags, 2-byte network-order ethertype tag) to a payload and
stripping it back through `recv_raw` recovers exactly the original payload
bytes, and the payload class is the one bound to exactly the ethertype that
was encoded in the header. -/
theorem claim_C2 (ch : Channel) (be : Bool) (flags ty : Nat)
    (payload : List Nat) (now : Nat)
    (hk : ch.kernel_packet_class = .LinuxTunPacketInfo)
    (h4 : ch.mtu_overhead = 4) (hs : ch.strip_packet_info = true)
    (hc : ch.closed = false) (hty : ty < 65536) :
    (TunTapInterface.recv_raw ch
        (buildLinuxTunPacketInfo be flags ty ++ payload) now
        (some payload.length)).result
      = .ok (.etherBound ty, payload, now) := by
  have hlen4 := length_buildLinuxTunPacketInfo be flags ty
  have hall : (buildLinuxTunPacketInfo be flags ty ++ payload).take
      ((some payload.length).getD ch.default_read_size + 4)
      = buildLinuxTunPacketInfo be flags ty ++ payload := by
    apply List.take_of_length_le
    simp [hlen4]
    omega
  rw [recv_raw_strip4 ch _ now _ h4 hs hc, hk, hall]
  have htake : (buildLinuxTunPacketInfo be flags ty ++ payload).take 4
      = buildLinuxTunPacketInfo be flags ty := by
    rw [← hlen4, List.take_left]
  have hdrop : (buildLinuxTunPacketInfo be flags ty ++ payload).drop 4
      = payload := by
    rw [← hlen4, List.drop_left]
  rw [htake, hdrop]
  simp [guess_payload_class, linuxTunPacketInfoType_build be flags ty hty]

/-- Claim C4: on a stripped `recv` over a utun channel, a 4-byte header
whose address-family field is `AF_INET` yields the `IPv4` payload class,
`AF_INET6` yields `IPv6`, and any other address-family value makes the call
fail with the unsupported-address-family error. -/
theorem claim_C4 (ch : Channel) (af : Nat) (payload : List Nat) (now : Nat)
    (hk : ch.kernel_packet_class = .MacOSUtunPacketInfo)
    (h4 : ch.mtu_overhead = 4) (hs : ch.strip_packet_info = true)
    (hc : ch.closed = false) (haf : af < 4294967296) :
    (TunTapInterface.recv_raw ch
        (buildMacOSUtunPacketInfo af ++ payload) now
        (some payload.length)).result
      = (if af = AF_INET then .ok (.ipv4, payload, now)
         else if af = AF_INET6 then .ok (.ipv6, payload, now)
         else .error .UnsupportedAddressFamilyError) := by
  have hlen4 := length_buildMacOSUtunPacketInfo af
  have hall : (buildMacOSUtunPacketInfo af ++ payload).take
      ((some payload.length).getD ch.default_read_size + 4)
      = buildMacOSUtunPacketInfo af ++ payload := by
    apply List.take_of_length_le
    simp [hlen4]
    omega
  rw [recv_raw_strip4 ch _ now _ h4 hs hc, hk, hall]
  have htake : (buildMacOSUtunPacketInfo af ++ payload).take 4
      = buildMacOSUtunPacketInfo af := by
    rw [← hlen4, List.take_left]
  have hdrop : (buildMacOSUtunPacketInfo af ++ payload).drop 4
      = payload := by
    rw [← hlen4, List.drop_left]
  rw [htake, hdrop]
  have hg : guess_payload_class KernelClass.MacOSUtunPacketInfo
      (buildMacOSUtunPacketInfo af)
      = (if af = AF_INET then .ok .ipv4
         else if af = AF_INET6 then .ok .ipv6
         else .error .UnsupportedAddressFamilyError) := by
    simp only [guess_payload_class, buildMacOSUtunPacketInfo,
      parseBE4_beIntBytes af haf]
  rw [hg]
  by_cases h1 : af = AF_INET
  · rw [if_pos h1, if_pos h1]
  · rw [if_neg h1, if_neg h1]
    by_cases h2 : af = AF_INET6
    · rw [if_pos h2, if_pos h2]
    · rw [if_neg h2, if_neg h2]

/-- Claim C3: at construction with no explicit mode, a name beginning with
`tun` or `utun` yields tun mode, a name beginning with `tap` yields tap
mode, and any other name makes construction fail with the
ambiguous-mode error, returning no partial object. -/
theorem claim_C3 (be : Bool) (iface : List Nat) (drs : Nat) (spi : Bool) :
    ((List.isPrefixOf asciiTun iface || List.isPrefixOf asciiUtun iface) = true →
      initMode (tuntapInit_linux be iface none drs spi) = some true) ∧
    (List.isPrefixOf asciiTap iface = true →
      initMode (tuntapInit_linux be iface none drs spi) = some false) ∧
    ((List.isPrefixOf asciiTun iface || List.isPrefixOf asciiUtun iface
        || List.isPrefixOf asciiTap iface) = false →
      tuntapInit_linux be iface none drs spi
        = .error .AmbiguousModeError) := by
  refine ⟨?_, ?_, ?_⟩
  · intro h
    simp [tuntapInit_linux, inferModeTun, h, initMode, linuxSetup]
  · intro h
    obtain ⟨h1, h2⟩ := tap_not_tun iface h
    simp [tuntapInit_linux, inferModeTun, h, h1, h2, initMode, linuxSetup]
  · intro h
    simp only [Bool.or_eq_false_iff] at h
    obtain ⟨⟨h1, h2⟩, h3⟩ := h
    simp [tuntapInit_linux, inferModeTun, h1, h2, h3]

/-- Claim C5: on the Linux branch a name longer than `LINUX_IFNAMSIZ = 16`
bytes is truncated to exactly its first 16 bytes, the truncation warning is
emitted exactly once, and the serialized `LinuxTunIfReq` carries the name in
a fixed 16-byte field zero-padded to exactly 16 bytes. -/
theorem claim_C5 (be : Bool) (iface : List Nat) (mt : Option Bool) (drs : Nat)
    (spi : Bool) (res : InitResult) (hlong : 16 < iface.length)
    (hinit : tuntapInit_linux be iface mt drs spi = .ok res) :
    res.iface = iface.take 16 ∧ res.iface.length = 16 ∧
    res.warnings.count .nameTruncated = 1 ∧
    res.ifreqBytes.take 16
      = res.iface ++ List.replicate (16 - res.iface.length) 0 ∧
    (res.ifreqBytes.take 16).length = 16 := by
  unfold tuntapInit_linux at hinit
  cases hm : inferModeTun iface mt with
  | error e => rw [hm] at hinit; exact absurd hinit (by simp)
  | ok modeTun =>
    rw [hm] at hinit
    injection hinit with hres
    subst hres
    have hcond : iface.length > LINUX_IFNAMSIZ := by
      simp [LINUX_IFNAMSIZ]
      omega
    have hikey : (linuxSetup be iface modeTun drs spi).iface = iface.take 16 := by
      simp [linuxSetup, hcond, LINUX_IFNAMSIZ]
    have hilen : (iface.take 16).length = 16 := by
      simp
      omega
    have hreq : (linuxSetup be iface modeTun drs spi).ifreqBytes
        = strFixedLen 16 (iface.take 16) ++ nativeShortBytes be
            (linuxSetup be iface modeTun drs spi).flags := by
      cases modeTun <;>
        simp [linuxSetup, LINUX_IFNAMSIZ, hlong, buildLinuxTunIfReq]
    have hsl : (strFixedLen 16 (iface.take 16)).length = 16 :=
      length_strFixedLen 16 (iface.take 16)
    have htk : ((linuxSetup be iface modeTun drs spi).ifreqBytes).take 16
        = strFixedLen 16 (iface.take 16) := by
      rw [hreq, take_append_of_length _ _ _ hsl]
    refine ⟨hikey, by rw [hikey]; exact hilen, ?_, ?_, ?_⟩
    · cases modeTun <;> simp [linuxSetup, hcond]
    · rw [htk, hikey, hilen]
      simp [strFixedLen, List.take_of_length_le (le_of_eq hilen)]
      omega
    · rw [htk, hsl]

/-- Claim C6: on the Linux branch the tap-mode open request sets both the
is-tap and the no-packet-info bits and forces `strip_packet_info` to `true`
with a warning, regardless of the caller's `strip_packet_info` argument;
the tun-mode open request sets only the is-tun bit (and neither forces
stripping nor warns about packet info). -/
theorem claim_C6 (be : Bool) (iface : List Nat) (mt : Option Bool) (drs : Nat)
    (spi : Bool) (res : InitResult)
    (hinit : tuntapInit_linux be iface mt drs spi = .ok res) :
    res.flags = (if res.ch.mode_tun then LINUX_IFF_TUN
                 else LINUX_IFF_TAP ||| LINUX_IFF_NO_PI) ∧
    res.ch.strip_packet_info = (if res.ch.mode_tun then spi else true) ∧
    res.warnings.count .tapNoPacketInfo
      = (if res.ch.mode_tun then 0 else 1) := by
  unfold tuntapInit_linux at hinit
  cases hm : inferModeTun iface mt with
  | error e => rw [hm] at hinit; exact absurd hinit (by simp)
  | ok modeTun =>
    rw [hm] at hinit
    injection hinit with hres
    subst hres
    by_cases hl : iface.length > LINUX_IFNAMSIZ <;>
      cases modeTun <;>
      simp [linuxSetup, hl]

/-- The fields of a `send` call that do not depend on the write's outcome:
the caller's (possibly `sent_time`-stamped) frame, the wrapped frame that is
serialized, and the single write of its serialization. -/
theorem send_fields (rawFn : Pkt → List Nat) (ch : Channel) (wf : Bool)
    (now : Nat) (x : Pkt) :
    (TunTapInterface.send rawFn ch wf now x).callerFrame
        = (if x.hasSentTime then x.setSentTime now else x) ∧
    (TunTapInterface.send rawFn ch wf now x).prepared
        = sendWrap ch.kernel_packet_class
            (if x.hasSentTime then x.setSentTime now else x) ∧
    (TunTapInterface.send rawFn ch wf now x).writes
        = [rawFn (sendWrap ch.kernel_packet_class
            (if x.hasSentTime then x.setSentTime now else x))] := by
  simp only [TunTapInterface.send]
  cases houts : outsWrite ch.closed wf
      (rawFn (sendWrap ch.kernel_packet_class
        (if x.hasSentTime then x.setSentTime now else x))) with
  | ok r => exact ⟨rfl, rfl, rfl⟩
  | error e => cases e <;> exact ⟨rfl, rfl, rfl⟩

/-- Claim C7: once `close()` has been called, every subsequent `recv` fails
with the closed-channel error, and so does every subsequent `send`,
deterministically on every such call (for all sizes, frames, stream
contents and times). -/
theorem claim_C7 (ch : Channel) (stream : List Nat) (now : Nat)
    (size : Option Nat) (rawFn : Pkt → List Nat) (writeFails : Bool)
    (now2 : Nat) (p : Pkt) :
    (TunTapInterface.recv_raw (TunTapInterface.close ch) stream now size).result
      = .error .ClosedChannelError ∧
    (TunTapInterface.send rawFn (TunTapInterface.close ch) writeFails now2 p).result
      = .error .ClosedChannelError := by
  constructor
  · simp [TunTapInterface.recv_raw, TunTapInterface.close, insRead]
  · simp [TunTapInterface.send, TunTapInterface.close, outsWrite]

/-- Claim C8: `send` on an `IPv46` (layer-3 auto-detect) channel wraps any
frame that is not already `IP` or `IPv6` as `IP() / x`; on any other channel
a frame that is not an instance of the channel's expected header class gets
that class's default header prepended; the (possibly wrapped, possibly
`sent_time`-stamped) frame is then serialized and written to the handle in
exactly one write followed by a flush, returning the stream's byte count. -/
theorem claim_C8 (rawFn : Pkt → List Nat) (ch : Channel) (now : Nat) (x : Pkt)
    (hc : ch.closed = false) :
    (TunTapInterface.send rawFn ch false now x).prepared
      = (let x1 := if x.hasSentTime then x.setSentTime now else x
         if ch.kernel_packet_class = .IPv46 then
           if x1.cls = .IP ∨ x1.cls = .IPv6 then x1
           else .layered .IP true none x1
         else if x1.cls = clsOfKernel ch.kernel_packet_class then x1
         else .layered (clsOfKernel ch.kernel_packet_class) true none x1) ∧
    (TunTapInterface.send rawFn ch false now x).writes
      = [rawFn ((TunTapInterface.send rawFn ch false now x).prepared)] ∧
    (TunTapInterface.send rawFn ch false now x).flushed = true ∧
    (TunTapInterface.send rawFn ch false now x).result
      = .ok (some (rawFn ((TunTapInterface.send rawFn ch false now x).prepared)).length) := by
  have hf := send_fields rawFn ch false now x
  refine ⟨?_, ?_, ?_, ?_⟩
  · rw [hf.2.1]
    rfl
  · rw [hf.2.2, hf.2.1]
  · simp [TunTapInterface.send, outsWrite, hc]
  · rw [hf.2.1]
    simp [TunTapInterface.send, outsWrite, hc]

/-- Claim C9: when the underlying write raises a transport-level error,
`send` catches it, emits exactly one runtime-error log entry naming the
component (`TunTapInterface`), does not let the error propagate (the call
returns Python's `None`), and makes no second write attempt. -/
theorem claim_C9 (rawFn : Pkt → List Nat) (ch : Channel) (now : Nat) (x : Pkt)
    (hc : ch.closed = false) :
    (TunTapInterface.send rawFn ch true now x).result = .ok none ∧
    (TunTapInterface.send rawFn ch true now x).logged
      = ["TunTapInterface send"] ∧
    (TunTapInterface.send rawFn ch true now x).writes.length = 1 := by
  simp [TunTapInterface.send, outsWrite, hc]

/-- Claim C10: for every frame carrying a `sent_time` attribute, `send`
mutates the caller's frame object by stamping the current time into
`sent_time`, and it does so before any wrapping or serialization (the
wrapped frame and the written bytes are computed from the already-stamped
frame); this happens on every such call. -/
theorem claim_C10 (rawFn : Pkt → List Nat) (ch : Channel) (writeFails : Bool)
    (now : Nat) (x : Pkt) (h : x.hasSentTime = true) :
    (TunTapInterface.send rawFn ch writeFails now x).callerFrame
      = x.setSentTime now ∧
    (x.setSentTime now).sentTimeVal = some now ∧
    (TunTapInterface.send rawFn ch writeFails now x).prepared
      = sendWrap ch.kernel_packet_class (x.setSentTime now) ∧
    (TunTapInterface.send rawFn ch writeFails now x).writes
      = [rawFn (sendWrap ch.kernel_packet_class (x.setSentTime now))] := by
  have hf := send_fields rawFn ch writeFails now x
  refine ⟨?_, ?_, ?_, ?_⟩
  · rw [hf.1]
    simp [h]
  · cases x <;> rfl
  · rw [hf.2.1]
    simp [h]
  · rw [hf.2.2]
    simp [h]

/-! ## Witnesses: each theorem with hypotheses evaluated at concrete inputs -/

/-- Witness for C1: on the Linux tun channel, requesting 3 bytes over a
7-byte stream performs one read of 7 bytes and returns the 3 bytes after
the 4-byte header. -/
theorem claim_C1_witness :
    chLinuxTun.mtu_overhead = 4 ∧ chLinuxTun.strip_packet_info = true ∧
    chLinuxTun.closed = false ∧
    (some 3).getD chLinuxTun.default_read_size + 4
      ≤ ([0, 0, 8, 0, 1, 2, 3] : List Nat).length ∧
    (TunTapInterface.recv_raw chLinuxTun [0, 0, 8, 0, 1, 2, 3] 0
        (some 3)).readSizes = [7] ∧
    (TunTapInterface.recv_raw chLinuxTun [0, 0, 8, 0, 1, 2, 3] 0
        (some 3)).result = .ok (.etherBound 2048, [1, 2, 3], 0) ∧
    ((([0, 0, 8, 0, 1, 2, 3] : List Nat).drop 4).take 3).length = 3 := by
  have h := claim_C1 chLinuxTun [0, 0, 8, 0, 1, 2, 3] 0 (some 3)
    rfl rfl rfl (by decide)
  exact ⟨rfl, rfl, rfl, by decide, h.1, h.2.1, h.2.2⟩

/-- Witness for C2: encoding ethertype `0x9000` with flags 0 and payload
`[1, 2, 3]` and stripping it back recovers the payload and the tag. -/
theorem claim_C2_witness :
    chLinuxTun.kernel_packet_class = .LinuxTunPacketInfo ∧
    chLinuxTun.mtu_overhead = 4 ∧ chLinuxTun.strip_packet_info = true ∧
    chLinuxTun.closed = false ∧ 36864 < 65536 ∧
    (TunTapInterface.recv_raw chLinuxTun
        (buildLinuxTunPacketInfo false 0 36864 ++ [1, 2, 3]) 0
        (some 3)).result = .ok (.etherBound 36864, [1, 2, 3], 0) := by
  have h := claim_C2 chLinuxTun false 0 36864 [1, 2, 3] 0
    rfl rfl rfl rfl (by decide)
  exact ⟨rfl, rfl, rfl, rfl, by decide, h⟩

/-- Witness for C3: `tun0` infers tun mode, `tap3` infers tap mode, and
`eth0` fails with the ambiguous-mode error. -/
theorem claim_C3_witness :
    (List.isPrefixOf asciiTun tun0Name || List.isPrefixOf asciiUtun tun0Name)
        = true ∧
    initMode (tuntapInit_linux false tun0Name none 1500 true) = some true ∧
    List.isPrefixOf asciiTap tap3Name = true ∧
    initMode (tuntapInit_linux false tap3Name none 1500 true) = some false ∧
    (List.isPrefixOf asciiTun eth0Name || List.isPrefixOf asciiUtun eth0Name
        || List.isPrefixOf asciiTap eth0Name) = false ∧
    tuntapInit_linux false eth0Name none 1500 true
      = .error .AmbiguousModeError := by
  refine ⟨by decide, ?_, by decide, ?_, by decide, ?_⟩
  · exact (claim_C3 false tun0Name 1500 true).1 (by decide)
  · exact (claim_C3 false tap3Name 1500 true).2.1 (by decide)
  · exact (claim_C3 false eth0Name 1500 true).2.2 (by decide)

/-- Witness for C4: on the utun channel, address family 2 (`AF_INET`)
yields the IPv4 class and address family 99 fails with the
unsupported-address-family error. -/
theorem claim_C4_witness :
    chUtun.kernel_packet_class = .MacOSUtunPacketInfo ∧
    chUtun.mtu_overhead = 4 ∧ chUtun.strip_packet_info = true ∧
    chUtun.closed = false ∧ 2 < 4294967296 ∧ 99 < 4294967296 ∧
    (TunTapInterface.recv_raw chUtun (buildMacOSUtunPacketInfo 2 ++ [9]) 0
        (some 1)).result = .ok (.ipv4, [9], 0) ∧
    (TunTapInterface.recv_raw chUtun (buildMacOSUtunPacketInfo 99 ++ [9]) 0
        (some 1)).result = .error .UnsupportedAddressFamilyError := by
  have h2 := claim_C4 chUtun 2 [9] 0 rfl rfl rfl rfl (by decide)
  have h99 := claim_C4 chUtun 99 [9] 0 rfl rfl rfl rfl (by decide)
  exact ⟨rfl, rfl, rfl, rfl, by decide, by decide, h2, h99⟩

/-- Witness for C5: a 20-byte name on the Linux branch is truncated to its
first 16 bytes, warns exactly once about truncation, and the request's name
field is exactly 16 zero-padded bytes. -/
theorem claim_C5_witness :
    16 < longName.length ∧
    tuntapInit_linux false longName (some true) 1500 true
      = .ok (linuxSetup false longName true 1500 true) ∧
    ((linuxSetup false longName true 1500 true).iface = longName.take 16 ∧
     (linuxSetup false longName true 1500 true).iface.length = 16 ∧
     (linuxSetup false longName true 1500 true).warnings.count .nameTruncated
        = 1 ∧
     ((linuxSetup false longName true 1500 true).ifreqBytes).take 16
        = (linuxSetup false longName true 1500 true).iface ++
          List.replicate
            (16 - (linuxSetup false longName true 1500 true).iface.length) 0 ∧
     (((linuxSetup false longName true 1500 true).ifreqBytes).take 16).length
        = 16) := by
  exact ⟨by decide, rfl,
    claim_C5 false longName (some true) 1500 true
      (linuxSetup false longName true 1500 true) (by decide) rfl⟩

/-- Witness for C6: constructing `tap3` with `strip_packet_info = false`
still yields a stripping channel with the is-tap and no-packet-info bits and
the forced-stripping warning; constructing `tun0` sets only the is-tun
bit. -/
theorem claim_C6_witness :
    tuntapInit_linux false tap3Name none 1500 false
      = .ok (linuxSetup false tap3Name false 1500 false) ∧
    ((linuxSetup false tap3Name false 1500 false).flags
        = (LINUX_IFF_TAP ||| LINUX_IFF_NO_PI) ∧
     (linuxSetup false tap3Name false 1500 false).ch.strip_packet_info
        = true ∧
     (linuxSetup false tap3Name false 1500 false).warnings.count
        .tapNoPacketInfo = 1) ∧
    tuntapInit_linux false tun0Name none 1500 true
      = .ok (linuxSetup false tun0Name true 1500 true) ∧
    (linuxSetup false tun0Name true 1500 true).flags = LINUX_IFF_TUN := by
  have htap := claim_C6 false tap3Name none 1500 false
    (linuxSetup false tap3Name false 1500 false) rfl
  have htun := claim_C6 false tun0Name none 1500 true
    (linuxSetup false tun0Name true 1500 true) rfl
  exact ⟨rfl, ⟨htap.1, htap.2.1, htap.2.2⟩, rfl, htun.1⟩

/-- Witness for C8: a bare non-matching frame sent over the Linux tun
channel gets the `LinuxTunPacketInfo` default header prepended and is
written once and flushed. -/
theorem claim_C8_witness :
    chLinuxTun.closed = false ∧
    (TunTapInterface.send (fun _ => [1, 2]) chLinuxTun false 0
        (Pkt.base .RawData true none [5])).prepared
      = .layered .LinuxTunPacketInfo true none
          (Pkt.base .RawData true (some 0) [5]) ∧
    (TunTapInterface.send (fun _ => [1, 2]) chLinuxTun false 0
        (Pkt.base .RawData true none [5])).writes = [[1, 2]] ∧
    (TunTapInterface.send (fun _ => [1, 2]) chLinuxTun false 0
        (Pkt.base .RawData true none [5])).flushed = true ∧
    (TunTapInterface.send (fun _ => [1, 2]) chLinuxTun false 0
        (Pkt.base .RawData true none [5])).result = .ok (some 2) := by
  have h := claim_C8 (fun _ => [1, 2]) chLinuxTun 0
    (Pkt.base .RawData true none [5]) rfl
  exact ⟨rfl, h.1, h.2.1, h.2.2.1, h.2.2.2⟩

/-- Witness for C9: a failing write on the Linux tun channel is logged with
the component name, returns `None`, and only one write is attempted. -/
theorem claim_C9_witness :
    chLinuxTun.closed = false ∧
    (TunTapInterface.send (fun _ => [1, 2]) chLinuxTun true 0
        (Pkt.base .RawData true none [5])).result = .ok none ∧
    (TunTapInterface.send (fun _ => [1, 2]) chLinuxTun true 0
        (Pkt.base .RawData true none [5])).logged
      = ["TunTapInterface send"] ∧
    (TunTapInterface.send (fun _ => [1, 2]) chLinuxTun true 0
        (Pkt.base .RawData true none [5])).writes.length = 1 := by
  have h := claim_C9 (fun _ => [1, 2]) chLinuxTun 0
    (Pkt.base .RawData true none [5]) rfl
  exact ⟨rfl, h.1, h.2.1, h.2.2⟩

/-- Witness for C10: a frame with a `sent_time` attribute is stamped with
the current time (5), and the wrapped frame and written bytes are built
from the stamped frame. -/
theorem claim_C10_witness :
    (Pkt.base .IP true none [1]).hasSentTime = true ∧
    (TunTapInterface.send (fun _ => []) chLinuxTun false 5
        (Pkt.base .IP true none [1])).callerFrame
      = Pkt.base .IP true (some 5) [1] ∧
    (Pkt.base .IP true (some 5) [1]).sentTimeVal = some 5 ∧
    (TunTapInterface.send (fun _ => []) chLinuxTun false 5
        (Pkt.base .IP true none [1])).prepared
      = .layered .LinuxTunPacketInfo true none (Pkt.base .IP true (some 5) [1]) ∧
    (TunTapInterface.send (fun _ => []) chLinuxTun false 5
        (Pkt.base .IP true none [1])).writes = [[]] := by
  have h := claim_C10 (fun _ => []) chLinuxTun false 5
    (Pkt.base .IP true none [1]) rfl
  exact ⟨rfl, h.1, h.2.1, h.2.2.1, h.2.2.2⟩
